import Mathlib

/-!
Verification of the tindeq_sonification repository.

Shallow embedding of the Python sources (tindeq.py, main.py, states.py,
audio.py, controller.py).  Python floats are modelled exactly over ℚ;
Python exceptions are modelled as explicit error values that carry the
mutated state at the point the exception propagates, matching Python's
semantics where attribute mutations before a raise persist.
-/

/-- Python exceptions that the modelled code can raise. -/
inductive PyError
  | zeroDivisionError
  | attributeError
  | structError
  | runtimeError
  deriving DecidableEq, Repr

/-! ## Wire codec (tindeq.py)

`data_struct = struct.Struct("<fl")`: little-endian IEEE-754 binary32
float followed by a little-endian signed 32-bit integer.
`info_struct = struct.Struct("<bb")`: two signed bytes. -/

/-- Value of an IEEE-754 binary32 datum: finite values are exact rationals;
infinities and NaNs are kept symbolic. -/
inductive F32
  | finite (val : ℚ)
  | inf (neg : Bool)
  | nan
  deriving DecidableEq, Repr

/-- Classify a binary32 bit pattern from its sign, exponent and mantissa
fields.  A finite value is represented by its exact rational value. -/
def f32ofFields (sign expo mant : ℕ) : F32 :=
  if expo = 255 then (if mant = 0 then .inf (sign = 1) else .nan)
  else if expo = 0 then
    let mag : ℚ := (mant : ℚ) / 2 ^ 149
    .finite (if sign = 1 then -mag else mag)
  else
    let mag : ℚ := (((2 ^ 23 + mant) * 2 ^ expo : ℕ) : ℚ) / 2 ^ 150
    .finite (if sign = 1 then -mag else mag)

/-- Decode a 32-bit word (reduced mod 2^32) as an IEEE-754 binary32 value,
as Python's `struct.unpack("<f", ...)` does after byte assembly. -/
def float32ofBits (w : ℕ) : F32 :=
  f32ofFields (w % 4294967296 / 2147483648)
    (w % 4294967296 / 8388608 % 256) (w % 4294967296 % 8388608)

/-- Decode a 32-bit word as a signed two's-complement integer, as Python's
`struct.unpack("<l", ...)` does (format character l = signed 32-bit). -/
def int32ofBits (w : ℕ) : ℤ :=
  if w % 4294967296 < 2147483648 then ((w % 4294967296 : ℕ) : ℤ)
  else ((w % 4294967296 : ℕ) : ℤ) - 4294967296

/-- Assemble four little-endian bytes into a 32-bit word. -/
def leWord4 (b0 b1 b2 b3 : ℕ) : ℕ :=
  b0 % 256 + 256 * (b1 % 256) + 65536 * (b2 % 256) + 16777216 * (b3 % 256)

/-- Python's signed-byte interpretation used by `info_struct` ("<bb"). -/
def sbyte (b : ℕ) : ℤ :=
  if b % 256 < 128 then (b % 256 : ℤ) else (b % 256 : ℤ) - 256

/-- `data_struct.iter_unpack` over the body bytes: repeatedly unpack
(float32, int32) little-endian records until the bytes are exhausted;
`struct.error` (here `none`) if the length is not a multiple of 8. -/
def iter_unpack_fl : List ℕ → Option (List (F32 × ℤ))
  | [] => some []
  | b0 :: b1 :: b2 :: b3 :: b4 :: b5 :: b6 :: b7 :: rest =>
      (iter_unpack_fl rest).map fun l =>
        (float32ofBits (leWord4 b0 b1 b2 b3), int32ofBits (leWord4 b4 b5 b6 b7)) :: l
  | _ => none

/-- Subtract the tare offset from a weight reading; NaN and infinities
propagate unchanged, as in Python float arithmetic. -/
def F32.subQ : F32 → ℚ → F32
  | .finite v, t => .finite (v - t)
  | x, _ => x

/-- Outcome of `TindeqProgressor._notify_handler` on one notification frame. -/
inductive NotifyResult
  | pushed (pairs : List (ℚ × F32))
  | cmd_response
  | low_power
  | failed (e : PyError)
  deriving DecidableEq, Repr

/-- Model of `TindeqProgressor._notify_handler`: reads the two header bytes
(kind, size); on kind = 1 (weight_measure) unpacks (float32 weight,
int32 microseconds) records from the remaining bytes and produces, per
record, the pair (useconds / 1e6, weight - tare) handed to
`queue_function`; kind = 0 dispatches to `_cmd_response`; kind = 4 prints a
low-power warning; any other kind raises RuntimeError. -/
def notify_handler (tare : ℚ) (data : List ℕ) : NotifyResult :=
  match data with
  | kind :: _size :: body =>
    if sbyte kind = 1 then
      match iter_unpack_fl body with
      | some recs =>
          .pushed (recs.map fun r => (((r.2 : ℚ) / 1000000), r.1.subQ tare))
      | none => .failed .structError
    else if sbyte kind = 0 then .cmd_response
    else if sbyte kind = 4 then .low_power
    else .failed .runtimeError
  | _ => .failed .structError

/-- Little-endian 4-byte serialization of a 32-bit word; used to build the
synthetic test frames of the round-trip property. -/
def leBytes4 (w : ℕ) : List ℕ :=
  [w % 256, w / 256 % 256, w / 65536 % 256, w / 16777216 % 256]

/-- Serialize one (float32 bits, microseconds bits) record. -/
def encodeRecord (wbits usbits : ℕ) : List ℕ :=
  leBytes4 wbits ++ leBytes4 usbits

/-- Serialize a list of records. -/
def encodeRecords : List (ℕ × ℕ) → List ℕ
  | [] => []
  | r :: rs => encodeRecord r.1 r.2 ++ encodeRecords rs

/-- Build a full WeightMeasurement notification frame (kind byte 1). -/
def encodeWeightFrame (size : ℕ) (recs : List (ℕ × ℕ)) : List ℕ :=
  1 :: size :: encodeRecords recs

/-- Decoder the claim describes, differing from the source only in reading
the microseconds field as an unsigned 32-bit integer ("<fL") instead of the
source's signed "<fl". -/
def claimed_iter_unpack_fL : List ℕ → Option (List (F32 × ℤ))
  | [] => some []
  | b0 :: b1 :: b2 :: b3 :: b4 :: b5 :: b6 :: b7 :: rest =>
      (claimed_iter_unpack_fL rest).map fun l =>
        (float32ofBits (leWord4 b0 b1 b2 b3), ((leWord4 b4 b5 b6 b7 : ℕ) : ℤ)) :: l
  | _ => none

/-- Notification handler as the claim describes it (unsigned microseconds). -/
def claimed_notify_handler (tare : ℚ) (data : List ℕ) : NotifyResult :=
  match data with
  | kind :: _size :: body =>
    if sbyte kind = 1 then
      match claimed_iter_unpack_fL body with
      | some recs =>
          .pushed (recs.map fun r => (((r.2 : ℚ) / 1000000), r.1.subQ tare))
      | none => .failed .structError
    else if sbyte kind = 0 then .cmd_response
    else if sbyte kind = 4 then .low_power
    else .failed .runtimeError
  | _ => .failed .structError

/-! ## Device session (tindeq.py) -/

/-- Keys of the `TindeqProgressor.cmds` dictionary. -/
inductive CmdKey
  | TARE_SCALE
  | START_WEIGHT_MEAS
  | STOP_WEIGHT_MEAS
  | START_PEAK_RFD_MEAS
  | START_PEAK_RFD_MEAS_SERIES
  | ADD_CALIB_POINT
  | SAVE_CALIB
  | GET_APP_VERSION
  | GET_ERR_INFO
  | CLR_ERR_INFO
  | SLEEP
  | GET_BATT_VLTG
  deriving DecidableEq, Repr

/-- Opcode mapping of the `cmds` dictionary. -/
def cmds : CmdKey → ℕ
  | .TARE_SCALE => 0x64
  | .START_WEIGHT_MEAS => 0x65
  | .STOP_WEIGHT_MEAS => 0x66
  | .START_PEAK_RFD_MEAS => 0x67
  | .START_PEAK_RFD_MEAS_SERIES => 0x68
  | .ADD_CALIB_POINT => 0x69
  | .SAVE_CALIB => 0x6A
  | .GET_APP_VERSION => 0x6B
  | .GET_ERR_INFO => 0x6C
  | .CLR_ERR_INFO => 0x6D
  | .SLEEP => 0x6E
  | .GET_BATT_VLTG => 0x6F

/-- `TindeqProgressor._pack`: `cmd.to_bytes(2, byteorder="little")`. -/
def pack (cmd : ℕ) : List ℕ := [cmd % 256, cmd / 256 % 256]

/-- Configuration of `self.queues`: normal operation holds the
(plot_queue, audio_queue) pair wired up in main.py; during `soft_tare` it is
replaced by a single private tare collection queue. -/
inductive Queues
  | main (plot : List (ℚ × ℚ)) (sound : Option ℚ)
  | tare (buf : List ℚ)
  deriving DecidableEq, Repr

/-- Which function `self.queue_function` currently points at: the normal
routing function from main.py or the private `tare_queue_function`. -/
inductive QueueFn
  | main_qf
  | tare_qf
  deriving DecidableEq, Repr

/-- Mutable state of a `TindeqProgressor` instance.  `client` is the BLE
client handle (`None` before `connect` and after `disconnect`); the
`hasattr(self, "client")` guard in `_send_cmd` is always true after
`__init__`, so only the `None` test matters. -/
structure TindeqState where
  tare_value : ℚ
  client : Option Unit
  last_cmd : Option String
  queues : Queues
  queue_fn : QueueFn
  deriving DecidableEq, Repr

/-- Session state right after `TindeqProgressor.__init__` with the queues
from main.py. -/
def initSession : TindeqState :=
  { tare_value := 0, client := none, last_cmd := none,
    queues := .main [] none, queue_fn := .main_qf }

/-- Model of `TindeqProgressor._send_cmd`: if the client is `None` it
returns immediately (no write, no state change); otherwise it writes the
packed opcode to the write characteristic.  The second component lists the
byte frames written to the transport. -/
def send_cmd (s : TindeqState) (key : CmdKey) : TindeqState × List (List ℕ) :=
  match s.client with
  | none => (s, [])
  | some _ => (s, [pack (cmds key)])

/-- `TindeqProgressor.get_batt`: sets `last_cmd` then sends GET_BATT_VLTG. -/
def get_batt (s : TindeqState) : TindeqState × List (List ℕ) :=
  send_cmd { s with last_cmd := some "get_batt" } .GET_BATT_VLTG

/-- `TindeqProgressor.start_logging_weight`. -/
def start_logging_weight (s : TindeqState) : TindeqState × List (List ℕ) :=
  send_cmd { s with last_cmd := none } .START_WEIGHT_MEAS

/-- `TindeqProgressor.stop_logging_weight`. -/
def stop_logging_weight (s : TindeqState) : TindeqState × List (List ℕ) :=
  send_cmd { s with last_cmd := none } .STOP_WEIGHT_MEAS

/-- Result of an operation that may raise: the session state at the moment
the operation returns or the exception propagates, the frames written, and
the error if one was raised. -/
structure SessionResult where
  session : TindeqState
  writes : List (List ℕ)
  error : Option PyError
  deriving DecidableEq, Repr

/-- Model of `TindeqProgressor.disconnect`: `_send_cmd("SLEEP")` followed by
`self.client.disconnect()` and `self.client = None`.  When `client` is
already `None`, `_send_cmd` is a no-op but `self.client.disconnect()`
raises AttributeError (`None` has no `disconnect`). -/
def disconnect (s : TindeqState) : SessionResult :=
  let (s1, w) := send_cmd s .SLEEP
  match s1.client with
  | none => { session := s1, writes := w, error := some .attributeError }
  | some _ => { session := { s1 with client := none }, writes := w, error := none }

/-- Loop body of `TindeqProgressor.tare_mean`: drain the queue, summing the
weights and counting the samples. -/
def tare_loop : List ℚ → ℚ → ℕ → ℚ × ℕ
  | [], wsum, n => (wsum, n)
  | w :: rest, wsum, n => tare_loop rest (wsum + w) (n + 1)

/-- Model of `TindeqProgressor.tare_mean`: returns `weight_sum / samples`;
with zero samples Python's division raises ZeroDivisionError. -/
def tare_mean (buf : List ℚ) : Except PyError ℚ :=
  let r := tare_loop buf 0 0
  if r.2 = 0 then .error .zeroDivisionError else .ok (r.1 / (r.2 : ℚ))

/-- The private `tare_queue_function` inside `soft_tare`: put the weight
into the tare queue. -/
def tare_queue_function (buf : List ℚ) (weight : ℚ) : List ℚ :=
  buf ++ [weight]

/-- Model of `TindeqProgressor.soft_tare`.  `arrivals` is the sequence of
weight readings the notification handler delivers during the one-second
collection window; each is routed by `tare_queue_function` into the private
buffer.  If `tare_mean` raises (zero samples), the exception propagates
before the two restoring assignments run, so the redirected queues and
queue function remain in place. -/
def soft_tare (s : TindeqState) (arrivals : List ℚ) : SessionResult :=
  let saved_fn := s.queue_fn
  let saved_qs := s.queues
  let s := { s with queues := .tare [], queue_fn := .tare_qf }
  let (s, w1) := start_logging_weight s
  let s := { s with queues := .tare (arrivals.foldl tare_queue_function []) }
  let (s, w2) := stop_logging_weight s
  match tare_mean (arrivals.foldl tare_queue_function []) with
  | .error e =>
      { session := { s with queues := .tare [] }, writes := w1 ++ w2, error := some e }
  | .ok m =>
      { session := { s with tare_value := m, queues := saved_qs, queue_fn := saved_fn },
        writes := w1 ++ w2, error := none }

/-! ## Hand-off queues (main.py) -/

/-- `Queue.put_nowait` on a capacity-1 queue: succeeds when the slot is
free, raises `queue.Full` (modelled as `.error`) when it is occupied.  It
never blocks. -/
def put_nowait (slot : Option ℚ) (w : ℚ) : Except Unit (Option ℚ) :=
  match slot with
  | none => .ok (some w)
  | some _ => .error ()

/-- `Queue.get_nowait` on a capacity-1 queue: returns the stored value and
empties the slot, raises `queue.Empty` when the slot is empty. -/
def get_nowait (slot : Option ℚ) : Except Unit (ℚ × Option ℚ) :=
  match slot with
  | some w => .ok (w, none)
  | none => .error ()

/-- Model of `queue_function` in main.py: if the capacity-1 sound queue is
full, evict the unread value with `get_nowait`, then `put_nowait` the new
weight; finally append (time, weight) to the unbounded plot queue (which is
never full).  Returns the updated (plot, sound) pair, or the exception if a
nowait call raised. -/
def queue_function (plot : List (ℚ × ℚ)) (sound : Option ℚ)
    (sensor_time sensor_weight : ℚ) :
    Except Unit (List (ℚ × ℚ) × Option ℚ) := do
  let sound ←
    if sound.isSome then do
      let r ← get_nowait sound
      pure r.2
    else pure sound
  let sound ← put_nowait sound sensor_weight
  pure (plot ++ [(sensor_time, sensor_weight)], sound)

/-- Apply `queue_function` to a whole sequence of (time, weight) pushes,
propagating any exception. -/
def pushAll (plot : List (ℚ × ℚ)) (sound : Option ℚ) :
    List (ℚ × ℚ) → Except Unit (List (ℚ × ℚ) × Option ℚ)
  | [] => .ok (plot, sound)
  | p :: rest =>
    match queue_function plot sound p.1 p.2 with
    | .ok r => pushAll r.1 r.2 rest
    | .error e => .error e

/-! ## Exercise state machine (states.py, controller.py) -/

/-- Tagged variant of the state classes of states.py.  Each non-idle state
carries its `duration` and the `start_time` recorded at creation. -/
inductive ProtocolState
  | idle
  | countDown (duration start_time : ℚ)
  | active (duration start_time : ℚ)
  | rest (duration start_time : ℚ)
  deriving DecidableEq, Repr

/-- Per-state `color` class attribute. -/
def ProtocolState.color : ProtocolState → String
  | .idle => ""
  | .countDown _ _ => "orange"
  | .active _ _ => "green"
  | .rest _ _ => "red"

/-- Python `f'\x7bint(mins):02d\x7d'` formatting of an integer. -/
def fmt02 (n : ℤ) : String :=
  if 0 ≤ n ∧ n < 10 then "0" ++ toString n else toString n

/-- Timer text computed in `State.update`:
`divmod(self.duration - elapsed, 60)` followed by `02d` formatting of both
parts (both are integer-valued after Python's `int()`). -/
def timerText (remaining : ℚ) : String :=
  fmt02 ⌊remaining / 60⌋ ++ ":" ++ fmt02 ⌊remaining - 60 * (⌊remaining / 60⌋ : ℚ)⌋

/-- The slice of the `Controller` object that the state machine reads and
writes.  `callback_active` models whether the periodic Bokeh callback is
installed (`remove_callback` uninstalls it; the source marks protocol
completion this way). -/
structure Controller where
  state : ProtocolState
  active_time : ℚ
  rest_time : ℚ
  sets : ℤ
  completed : ℤ
  timer_queue : Option Bool
  div_text : String
  div_bg : String
  btn_label : String
  callback_active : Bool
  deriving DecidableEq, Repr

/-- Capacity-1 `timer_queue` push pattern used by every `end` method:
`if full(): get()` then `put(b)`. -/
def timerPush (slot : Option Bool) (b : Bool) : Option Bool :=
  match slot with
  | some _ => some b
  | none => some b

/-- `CountDownState.end`: replace the state with an `ActiveState` of
duration `active_time` starting now, and push `True` to the timer queue. -/
def CountDownState.end (c : Controller) (now : ℚ) : Controller :=
  { c with state := .active c.active_time now,
           timer_queue := timerPush c.timer_queue true }

/-- `ActiveState.end`: decrement `sets`, increment `completed`, replace the
state with a `RestState` of duration `rest_time` starting now, and push
`False` to the timer queue. -/
def ActiveState.end (c : Controller) (now : ℚ) : Controller :=
  { c with sets := c.sets - 1, completed := c.completed + 1,
           state := .rest c.rest_time now,
           timer_queue := timerPush c.timer_queue false }

/-- `RestState.end`: with `sets == 0`, display 00:00, remove the periodic
callback (twice in the source; modelled idempotently) and relabel the
button — the protocol is complete; otherwise start the next `ActiveState`
and push `True` to the timer queue. -/
def RestState.end (c : Controller) (now : ℚ) : Controller :=
  if c.sets = 0 then
    { c with div_text := "00:00", callback_active := false,
             btn_label := "Protocol complete." }
  else
    { c with state := .active c.active_time now,
             timer_queue := timerPush c.timer_queue true }

/-- `State.update` dispatched over the state tag.  `IdleState.update`
unconditionally installs a `CountDownState(10)` whose `start_time` is the
current time.  For timed states: compute `elapsed`, refresh the timer text
and background colour, and call `end` only when `elapsed > duration`
(strict comparison). -/
def State.update (c : Controller) (now : ℚ) : Controller :=
  match c.state with
  | .idle => { c with state := .countDown 10 now }
  | .countDown d st =>
      let c := { c with div_text := timerText (d - (now - st)),
                        div_bg := c.state.color }
      if now - st > d then CountDownState.end c now else c
  | .active d st =>
      let c := { c with div_text := timerText (d - (now - st)),
                        div_bg := c.state.color }
      if now - st > d then ActiveState.end c now else c
  | .rest d st =>
      let c := { c with div_text := timerText (d - (now - st)),
                        div_bg := c.state.color }
      if now - st > d then RestState.end c now else c

/-- The periodic callback fires only while it is installed; each firing
runs `State.update` at that tick's wall-clock time. -/
def runTicks (c : Controller) (ts : List ℚ) : Controller :=
  ts.foldl (fun c t => if c.callback_active then State.update c t else c) c

/-- Controller as armed for the default run of controller.py: sliders at
their defaults (active 7, rest 120, sets 6), periodic callback installed,
state Idle. -/
def initController : Controller :=
  { state := .idle, active_time := 7, rest_time := 120, sets := 6,
    completed := 0, timer_queue := none, div_text := "00:10",
    div_bg := "orange", btn_label := "Running", callback_active := true }

/-- The protocol is complete exactly when the periodic tick driver has been
stopped, which is how states.py marks the terminal state. -/
def protocolComplete (c : Controller) : Bool := !c.callback_active

/-! ## Audio synthesis engine (audio.py) -/

/-- One output sample, kept symbolic: its value is
`sineAmp * sin(2 * pi * sinePhase) + noiseAmp * g` where `g` is the
standard Gaussian draw of `white_noise` for that sample.  An all-zero
sample has both amplitudes zero. -/
structure Sample where
  sinePhase : ℚ
  sineAmp : ℚ
  noiseAmp : ℚ
  deriving DecidableEq, Repr

/-- Mutable state of the `Audio` object. -/
structure Audio where
  target : ℚ
  threshold : ℚ
  load : ℚ
  freq : ℚ
  start_idx : ℕ
  active : Bool
  deriving DecidableEq, Repr

/-- `Audio.__init__`. -/
def Audio.init : Audio :=
  { target := 1, threshold := 1 / 10, load := 0, freq := 500,
    start_idx := 0, active := false }

/-- `Audio.set_target`. -/
def Audio.set_target (a : Audio) (t : ℚ) : Audio := { a with target := t }

/-- Model of `Audio.gen_sine`: `sine_wave = 0.2 * sin(2*pi*freq*t)`;
`scale_factor = abs(target - y) / target`; if the latest load is strictly
within the threshold band of the target the block is the pure sine,
otherwise it is `scale_factor * white_noise + sine_wave` sample-wise.
Finally `start_idx += frames`. -/
def gen_sine (a : Audio) (frames : ℕ) (t : ℕ → ℚ) : Audio × List Sample :=
  let y := a.load
  let scale_factor := |a.target - y| / a.target
  let out :=
    if a.target - a.threshold < y ∧ y < a.target + a.threshold then
      (List.range frames).map fun i =>
        { sinePhase := a.freq * t i, sineAmp := 1 / 5, noiseAmp := 0 }
    else
      (List.range frames).map fun i =>
        { sinePhase := a.freq * t i, sineAmp := 1 / 5, noiseAmp := scale_factor }
  ({ a with start_idx := a.start_idx + frames }, out)

/-- Everything one invocation of the audio callback produces. -/
structure CallbackResult where
  audio : Audio
  load_q : Option ℚ
  timer_q : Option Bool
  outdata : List Sample
  deriving DecidableEq, Repr

/-- Model of the `callback` closure in `Audio.play_audio`: build the
per-sample time vector from `start_idx`; if the capacity-1 timer queue is
full, consume it into `active`; when inactive write an all-zero block
(without touching `start_idx`); when active consume any pending load value
and delegate to `gen_sine`. -/
def callback (samplerate : ℚ) (a : Audio) (load_q : Option ℚ)
    (timer_q : Option Bool) (frames : ℕ) : CallbackResult :=
  let t : ℕ → ℚ := fun i => ((a.start_idx + i : ℕ) : ℚ) / samplerate
  let (a, timer_q) :=
    match timer_q with
    | some b => ({ a with active := b }, (none : Option Bool))
    | none => (a, none)
  if !a.active then
    { audio := a, load_q := load_q, timer_q := timer_q,
      outdata := List.replicate frames { sinePhase := 0, sineAmp := 0, noiseAmp := 0 } }
  else
    let (a, load_q) :=
      match load_q with
      | some w => ({ a with load := w }, (none : Option ℚ))
      | none => (a, none)
    let r := gen_sine a frames t
    { audio := r.1, load_q := load_q, timer_q := timer_q, outdata := r.2 }

/-! ## Helper lemmas -/

/-- Draining loop of `tare_mean` computes the sum and the count. -/
lemma tare_loop_eq (l : List ℚ) : ∀ (wsum : ℚ) (n : ℕ),
    tare_loop l wsum n = (wsum + l.sum, n + l.length) := by
  induction l with
  | nil => intro wsum n; simp [tare_loop]
  | cons w rest ih =>
      intro wsum n
      rw [tare_loop, ih]
      simp [Prod.ext_iff]
      constructor
      · ring
      · omega

/-- With no samples, `tare_mean` raises ZeroDivisionError. -/
lemma tare_mean_nil : tare_mean [] = .error .zeroDivisionError := rfl

/-- With at least one sample, `tare_mean` returns the arithmetic mean. -/
lemma tare_mean_eq (l : List ℚ) (h : l ≠ []) :
    tare_mean l = .ok (l.sum / (l.length : ℚ)) := by
  have hlen : l.length ≠ 0 := by simpa [List.length_eq_zero] using h
  simp [tare_mean, tare_loop_eq, hlen]

/-- Folding `tare_queue_function` over the arrivals appends them in order. -/
lemma foldl_tare_queue_function (l : List ℚ) : ∀ acc : List ℚ,
    l.foldl tare_queue_function acc = acc ++ l := by
  induction l with
  | nil => intro acc; simp
  | cons w rest ih => intro acc; simp [List.foldl_cons, tare_queue_function, ih]

/-- A `_send_cmd` call never changes the session state. -/
lemma send_cmd_session (s : TindeqState) (k : CmdKey) : (send_cmd s k).1 = s := by
  cases hc : s.client <;> simp [send_cmd, hc]

/-- Characterization of `soft_tare` when no samples arrive: the exception
propagates out of `tare_mean` and the queue redirection is left in place. -/
lemma soft_tare_nil_spec (s : TindeqState) :
    (soft_tare s []).session =
      { s with queues := .tare [], queue_fn := .tare_qf, last_cmd := none } ∧
    (soft_tare s []).error = some .zeroDivisionError := by
  unfold soft_tare start_logging_weight stop_logging_weight
  cases hc : s.client <;>
    simp [send_cmd, hc, tare_mean, tare_loop, tare_queue_function]

/-- Characterization of `soft_tare` on a nonempty collection window: the
mean is stored and the queue routing is restored. -/
lemma soft_tare_ok_spec (s : TindeqState) (arrivals : List ℚ) (h : arrivals ≠ []) :
    (soft_tare s arrivals).session =
      { s with tare_value := arrivals.sum / (arrivals.length : ℚ), last_cmd := none } ∧
    (soft_tare s arrivals).error = none := by
  unfold soft_tare start_logging_weight stop_logging_weight
  cases hc : s.client <;>
    simp [send_cmd, hc, foldl_tare_queue_function, tare_mean_eq _ h]

/-! ## Claim theorems -/

/-- C1: for every tare-calibration run, if at least one weight sample was
collected during the window then `soft_tare` sets the tare offset to the
arithmetic mean of the collected samples and reports no error; with zero
samples it fails with the division-by-zero error and leaves the tare offset
untouched (in particular it never stores a NaN there). -/
theorem c1_soft_tare (s : TindeqState) (arrivals : List ℚ) :
    (arrivals ≠ [] →
      (soft_tare s arrivals).error = none ∧
      (soft_tare s arrivals).session.tare_value = arrivals.sum / (arrivals.length : ℚ)) ∧
    (arrivals = [] →
      (soft_tare s arrivals).error = some .zeroDivisionError ∧
      (soft_tare s arrivals).session.tare_value = s.tare_value) := by
  constructor
  · intro h
    obtain ⟨h1, h2⟩ := soft_tare_ok_spec s arrivals h
    exact ⟨h2, by rw [h1]⟩
  · intro h
    subst h
    obtain ⟨h1, h2⟩ := soft_tare_nil_spec s
    exact ⟨h2, by rw [h1]⟩

/-- Witness for C1 at concrete inputs: two samples 2 and 4 give tare 3 with
no error; an empty window gives the division-by-zero error. -/
theorem c1_soft_tare_witness :
    (soft_tare initSession [2, 4]).error = none ∧
    (soft_tare initSession [2, 4]).session.tare_value = 3 ∧
    (soft_tare initSession []).error = some .zeroDivisionError := by
  obtain ⟨h1, h2⟩ := (c1_soft_tare initSession [2, 4]).1 (by decide)
  refine ⟨h1, ?_, ((c1_soft_tare initSession []).2 rfl).1⟩
  rw [h2]; norm_num

/-- C9 (implicit): when `soft_tare` collects zero samples the
ZeroDivisionError propagates out of `tare_mean` before the restoring
assignments run: afterwards the queues and the queue function are still
redirected to the private tare buffer, and the tare offset is unchanged —
the operation is not atomic on error. -/
theorem c9_tare_not_atomic (s : TindeqState) :
    (soft_tare s []).error = some .zeroDivisionError ∧
    (soft_tare s []).session.queue_fn = .tare_qf ∧
    (soft_tare s []).session.queues = .tare [] ∧
    (soft_tare s []).session.tare_value = s.tare_value := by
  obtain ⟨h1, h2⟩ := soft_tare_nil_spec s
  exact ⟨h2, by rw [h1], by rw [h1], by rw [h1]⟩

/-- C10 (implicit): sending any command while the session holds no
connection (`client is None`, never connected or already disconnected) is a
silent no-op: `_send_cmd` returns without error, writes no bytes and leaves
the session state unchanged. -/
theorem c10_send_cmd_noop (s : TindeqState) (k : CmdKey) (h : s.client = none) :
    send_cmd s k = (s, []) := by
  simp [send_cmd, h]

/-- Witness for C10: a battery request on a never-connected session. -/
theorem c10_send_cmd_noop_witness :
    send_cmd initSession .GET_BATT_VLTG = (initSession, []) :=
  c10_send_cmd_noop initSession .GET_BATT_VLTG rfl

/-- C8 counterexample: after one successful `disconnect`, calling
`disconnect` a second time does not succeed: it raises AttributeError
because `self.client` is `None`, contradicting the claimed idempotence. -/
theorem c8_counterexample :
    (disconnect { initSession with client := some () }).error = none ∧
    (disconnect (disconnect { initSession with client := some () }).session).error =
      some PyError.attributeError := by
  decide

/-- C8 as amended: on a connected session, `disconnect` issues the Sleep
command and then closes and clears the transport connection; but it is not
idempotent: on an already-disconnected (or never-connected) session the
Sleep send is skipped as a no-op and the transport close raises
AttributeError, leaving the state unchanged. -/
theorem c8_disconnect (s : TindeqState) :
    (s.client = some () →
      disconnect s =
        { session := { s with client := none },
          writes := [pack (cmds .SLEEP)], error := none }) ∧
    (s.client = none →
      disconnect s = { session := s, writes := [], error := some .attributeError }) := by
  constructor <;> intro h <;> simp [disconnect, send_cmd, h]

/-- Witness for C8: the amended behaviour at concrete sessions. -/
theorem c8_disconnect_witness :
    disconnect { initSession with client := some () } =
      { session := initSession, writes := [[110, 0]], error := none } ∧
    disconnect initSession =
      { session := initSession, writes := [], error := some .attributeError } := by
  constructor
  · have h := (c8_disconnect { initSession with client := some () }).1 rfl
    rw [h]; decide
  · exact (c8_disconnect initSession).2 rfl

/-- One push through `queue_function` always succeeds: the eviction step
frees the capacity-1 sound slot, so `put_nowait` never raises, and the new
weight is what the slot then holds. -/
lemma queue_function_ok (plot : List (ℚ × ℚ)) (sound : Option ℚ)
    (t w : ℚ) :
    queue_function plot sound t w = .ok (plot ++ [(t, w)], some w) := by
  cases sound <;> rfl

/-- Folding a nonempty sequence of pushes leaves the plot backlog appended
in order and the sound slot holding the weight of the last push. -/
lemma pushAll_getLast (pushes : List (ℚ × ℚ)) : ∀ (p : ℚ × ℚ),
    pushes.getLast? = some p → ∀ (plot : List (ℚ × ℚ)) (sound : Option ℚ),
    pushAll plot sound pushes = .ok (plot ++ pushes, some p.2) := by
  induction pushes with
  | nil => intro p h; exact absurd h (by simp)
  | cons q rest ih =>
      intro p h plot sound
      simp only [pushAll, queue_function_ok]
      cases rest with
      | nil =>
          simp only [List.getLast?_singleton, Option.some.injEq] at h
          subst h
          simp [pushAll]
      | cons q2 rest2 =>
          rw [List.getLast?_cons_cons] at h
          rw [ih p h (plot ++ [q]) (some q.2)]
          simp

/-- C2: for every sequence of pushes to the capacity-1 LoadChannel (push
first evicts any unread value, then inserts), no push ever blocks or
raises, and a subsequent pop returns exactly the last pushed value — no
earlier value in the sequence is observed. -/
theorem c2_load_channel (plot : List (ℚ × ℚ)) (sound : Option ℚ)
    (pushes : List (ℚ × ℚ)) (p : ℚ × ℚ) (h : pushes.getLast? = some p) :
    pushAll plot sound pushes = .ok (plot ++ pushes, some p.2) ∧
    get_nowait (some p.2) = .ok (p.2, none) := by
  exact ⟨pushAll_getLast pushes p h plot sound, rfl⟩

/-- Witness for C2: pushing weights 5 then 9 leaves only 9 for the pop. -/
theorem c2_load_channel_witness :
    pushAll [] none [(1, 5), (2, 9)] = .ok ([(1, 5), (2, 9)], some 9) ∧
    get_nowait (some 9) = .ok (9, none) :=
  c2_load_channel [] none [(1, 5), (2, 9)] (2, 9) rfl

/-- Reassembling the little-endian bytes of a word recovers it mod 2^32. -/
lemma leWord4_leBytes4 (w : ℕ) :
    leWord4 (w % 256) (w / 256 % 256) (w / 65536 % 256) (w / 16777216 % 256) =
      w % 4294967296 := by
  unfold leWord4
  omega

/-- Reducing the bit pattern mod 2^32 does not change the decoded float. -/
lemma float32ofBits_mod (w : ℕ) :
    float32ofBits (w % 4294967296) = float32ofBits w := by
  have h : w % 4294967296 % 4294967296 = w % 4294967296 := by omega
  unfold float32ofBits
  rw [h]

/-- Reducing the bit pattern mod 2^32 does not change the decoded int32. -/
lemma int32ofBits_mod (w : ℕ) :
    int32ofBits (w % 4294967296) = int32ofBits w := by
  have h : w % 4294967296 % 4294967296 = w % 4294967296 := by omega
  unfold int32ofBits
  rw [h]

/-- Decoding the serialization of any record list recovers every record:
the decoder consumes consecutive 8-byte records until the bytes are
exhausted. -/
lemma iter_unpack_encodeRecords (recs : List (ℕ × ℕ)) :
    iter_unpack_fl (encodeRecords recs) =
      some (recs.map fun r => (float32ofBits r.1, int32ofBits r.2)) := by
  induction recs with
  | nil => rfl
  | cons r rs ih =>
      have hsplit : encodeRecords (r :: rs) =
          r.1 % 256 :: r.1 / 256 % 256 :: r.1 / 65536 % 256 :: r.1 / 16777216 % 256 ::
          r.2 % 256 :: r.2 / 256 % 256 :: r.2 / 65536 % 256 :: r.2 / 16777216 % 256 ::
          encodeRecords rs := by
        simp [encodeRecords, encodeRecord, leBytes4]
      rw [hsplit]
      simp only [iter_unpack_fl]
      rw [leWord4_leBytes4, leWord4_leBytes4, float32ofBits_mod, int32ofBits_mod, ih]
      simp

/-- C3 counterexample: the source decodes the microseconds field with the
signed format "<l", not as a uint32.  On a record whose microseconds bit
pattern is 2^31 the code yields a negative timestamp, while the decoder the
claim describes (uint32 microseconds) yields a positive one. -/
theorem c3_counterexample :
    notify_handler 0 (encodeWeightFrame 8 [(0x41480000, 0x80000000)]) =
      .pushed [(-(2147483648 / 1000000 : ℚ), .finite (25 / 2))] ∧
    claimed_notify_handler 0 (encodeWeightFrame 8 [(0x41480000, 0x80000000)]) =
      .pushed [((2147483648 / 1000000 : ℚ), .finite (25 / 2))] ∧
    notify_handler 0 (encodeWeightFrame 8 [(0x41480000, 0x80000000)]) ≠
      claimed_notify_handler 0 (encodeWeightFrame 8 [(0x41480000, 0x80000000)]) := by
  have h1 : notify_handler 0 (encodeWeightFrame 8 [(0x41480000, 0x80000000)]) =
      .pushed [(-(2147483648 / 1000000 : ℚ), .finite (25 / 2))] := by
    norm_num [notify_handler, encodeWeightFrame, encodeRecords, encodeRecord,
      leBytes4, iter_unpack_fl, leWord4, sbyte, float32ofBits, f32ofFields,
      int32ofBits, F32.subQ]
  have h2 : claimed_notify_handler 0 (encodeWeightFrame 8 [(0x41480000, 0x80000000)]) =
      .pushed [((2147483648 / 1000000 : ℚ), .finite (25 / 2))] := by
    norm_num [claimed_notify_handler, encodeWeightFrame, encodeRecords, encodeRecord,
      leBytes4, claimed_iter_unpack_fL, leWord4, sbyte, float32ofBits, f32ofFields,
      F32.subQ]
  refine ⟨h1, h2, ?_⟩
  rw [h1, h2]
  intro hcontra
  simp only [NotifyResult.pushed.injEq, List.cons.injEq, Prod.mk.injEq] at hcontra
  have := hcontra.1.1
  norm_num at this

/-- C3 as amended: for every WeightMeasurement notification frame, the
handler unpacks the body as consecutive little-endian (float32 weight,
signed int32 microseconds) records until the bytes are exhausted, each
yielding one sample with timestamp = microseconds / 1e6 and the tare
subtracted from the weight; in particular the synthetic record with
weight 12.5 and microseconds 3000000 round-trips bit-for-bit to the sample
(timestamp 3.0 s, weight 12.5). -/
theorem c3_signed_decode (tare : ℚ) (size : ℕ) (recs : List (ℕ × ℕ)) :
    notify_handler tare (encodeWeightFrame size recs) =
      .pushed (recs.map fun r =>
        ((int32ofBits r.2 : ℚ) / 1000000, (float32ofBits r.1).subQ tare)) ∧
    notify_handler 0 (encodeWeightFrame 8 [(0x41480000, 3000000)]) =
      .pushed [(3, .finite (25 / 2))] := by
  constructor
  · simp only [notify_handler, encodeWeightFrame]
    rw [iter_unpack_encodeRecords]
    norm_num [sbyte, List.map_map]
  · norm_num [notify_handler, encodeWeightFrame, encodeRecords, encodeRecord,
      leBytes4, iter_unpack_fl, leWord4, sbyte, float32ofBits, f32ofFields,
      int32ofBits, F32.subQ]

/-- The capacity-1 timer push always leaves exactly the new value. -/
lemma timerPush_eq (slot : Option Bool) (b : Bool) : timerPush slot b = some b := by
  cases slot <;> rfl

/-- Tick times driving the default run (sets 6, active 7, rest 120,
countdown 10) through all its transitions: the countdown expiry and six
Active-to-Rest cycles, ending with the Rest expiry at sets = 0. -/
def c4Ticks : List ℚ :=
  [0, 21 / 2, 18, 277 / 2, 146, 533 / 2, 274, 789 / 2, 402, 1045 / 2, 530,
   1301 / 2, 658, 1557 / 2]

/-- C4: running the default protocol (totalSets = 6) through six
Active-to-Rest cycles, the Rest-phase expiry with no sets remaining stops
the periodic tick driver (the source's terminal Complete state) with six
completed sets and the completion label; and for every state, a Rest expiry
with sets remaining transitions to Active and pushes true to the
ActivationChannel. -/
theorem c4_state_machine :
    (protocolComplete (runTicks initController c4Ticks) = true ∧
     (runTicks initController c4Ticks).completed = 6 ∧
     (runTicks initController c4Ticks).sets = 0 ∧
     (runTicks initController c4Ticks).btn_label = "Protocol complete.") ∧
    (∀ (c : Controller) (now d st : ℚ), c.state = .rest d st → c.sets ≠ 0 →
      now - st > d →
      (State.update c now).state = .active c.active_time now ∧
      (State.update c now).timer_queue = some true) := by
  constructor
  · norm_num [runTicks, c4Ticks, initController, State.update, CountDownState.end,
      ActiveState.end, RestState.end, timerPush, protocolComplete]
  · intro c now d st hst hsets hgt
    simp [State.update, hst, hgt, RestState.end, hsets, timerPush_eq]

/-- Witness for C4: a concrete Rest state with two sets remaining expires
into Active and pushes true. -/
theorem c4_state_machine_witness :
    (State.update { initController with state := .rest 120 0, sets := 2 } 121).state =
      .active 7 121 ∧
    (State.update { initController with state := .rest 120 0, sets := 2 } 121).timer_queue =
      some true := by
  have h := (c4_state_machine).2 { initController with state := .rest 120 0, sets := 2 }
    121 120 0 rfl (by norm_num) (by norm_num)
  exact h

/-- C7: a non-idle state never expires on a tick with elapsed time at most
its duration — the expiry check is strictly elapsed greater than duration,
so a tick landing exactly on the boundary does not transition; and a
CountDown of duration 10 created at t0 does expire on the single tick at
t0 + 10.1, transitioning to Active and pushing true to the
ActivationChannel. -/
theorem c7_strict_expiry :
    (∀ (c : Controller) (now d st : ℚ),
      (c.state = .countDown d st ∨ c.state = .active d st ∨ c.state = .rest d st) →
      now - st ≤ d →
      (State.update c now).state = c.state ∧
      (State.update c now).timer_queue = c.timer_queue ∧
      (State.update c now).sets = c.sets ∧
      (State.update c now).completed = c.completed ∧
      (State.update c now).callback_active = c.callback_active) ∧
    (∀ (c : Controller) (t0 : ℚ), c.state = .countDown 10 t0 →
      (State.update c (t0 + 101 / 10)).state = .active c.active_time (t0 + 101 / 10) ∧
      (State.update c (t0 + 101 / 10)).timer_queue = some true) := by
  constructor
  · intro c now d st hst hle
    rcases hst with h | h | h <;>
      simp [State.update, h, not_lt.2 hle]
  · intro c t0 h
    simp [State.update, h, CountDownState.end, timerPush_eq,
      show (10 : ℚ) < 101 / 10 by norm_num]

/-- Witness for C7: a CountDown started at t0 = 5 neither expires at
elapsed exactly 10 (tick at 15) nor keeps waiting at 15.1, where it
transitions to Active with the activation flag set. -/
theorem c7_strict_expiry_witness :
    (State.update { initController with state := .countDown 10 5 } 15).state =
      .countDown 10 5 ∧
    (State.update { initController with state := .countDown 10 5 } 15).timer_queue =
      none ∧
    (State.update { initController with state := .countDown 10 5 } (5 + 101 / 10)).state =
      .active 7 (5 + 101 / 10) ∧
    (State.update { initController with state := .countDown 10 5 } (5 + 101 / 10)).timer_queue =
      some true := by
  obtain ⟨h1, h2, -⟩ := (c7_strict_expiry).1
    { initController with state := .countDown 10 5 } 15 10 5 (Or.inl rfl) (by norm_num)
  obtain ⟨h3, h4⟩ := (c7_strict_expiry).2
    { initController with state := .countDown 10 5 } 5 rfl
  exact ⟨h1, h2, h3, h4⟩

/-- C5 counterexample: an audio-callback invocation with the activation
flag false writes the all-zero block but does not advance the running
sample counter: from the freshly initialized audio state a 200-frame
silent block leaves start_idx at 0, not 200. -/
theorem c5_counterexample :
    (callback 44100 Audio.init none (some false) 200).audio.start_idx = 0 ∧
    (callback 44100 Audio.init none (some false) 200).audio.start_idx ≠
      Audio.init.start_idx + 200 ∧
    (callback 44100 Audio.init none (some false) 200).outdata =
      List.replicate 200 { sinePhase := 0, sineAmp := 0, noiseAmp := 0 } := by
  refine ⟨rfl, ?_, rfl⟩
  intro h
  simp [callback, Audio.init] at h

/-- C5 as amended: a silent invocation (activation flag resolves to false)
writes the all-zero block and leaves `start_idx` unchanged — the counter
advances by the frame count only inside `gen_sine`, i.e. only on active
invocations. -/
theorem c5_silent_block (sr : ℚ) (a : Audio) (lq : Option ℚ) (tq : Option Bool)
    (frames : ℕ) :
    ((tq = some false ∨ (tq = none ∧ a.active = false)) →
      (callback sr a lq tq frames).outdata =
        List.replicate frames { sinePhase := 0, sineAmp := 0, noiseAmp := 0 } ∧
      (callback sr a lq tq frames).audio.start_idx = a.start_idx) ∧
    ((tq = some true ∨ (tq = none ∧ a.active = true)) →
      (callback sr a lq tq frames).audio.start_idx = a.start_idx + frames) := by
  constructor
  · rintro (h | ⟨h, ha⟩) <;> subst h <;> simp [callback, *]
  · rintro (h | ⟨h, ha⟩) <;> subst h <;> cases lq <;> simp [callback, gen_sine, *]

/-- Witness for C5: a silent 3-frame block leaves the counter at 0; an
active 5-frame block advances it to 5. -/
theorem c5_silent_block_witness :
    (callback 44100 Audio.init none (some false) 3).outdata =
      List.replicate 3 { sinePhase := 0, sineAmp := 0, noiseAmp := 0 } ∧
    (callback 44100 Audio.init none (some false) 3).audio.start_idx = 0 ∧
    (callback 44100 { Audio.init with active := true } none none 5).audio.start_idx = 5 := by
  obtain ⟨h1, h2⟩ := (c5_silent_block 44100 Audio.init none (some false) 3).1 (Or.inl rfl)
  exact ⟨h1, h2,
    (c5_silent_block 44100 { Audio.init with active := true } none none 5).2
      (Or.inr ⟨rfl, rfl⟩)⟩

/-- C6: on an active invocation, a latest load strictly within the
threshold band of the target produces the pure sine block at the configured
frequency with fixed amplitude 0.2 and no noise; otherwise every sample is
that same sine plus white noise scaled by |target - load| / target. -/
theorem c6_gen_sine (a : Audio) (frames : ℕ) (t : ℕ → ℚ) :
    (a.target - a.threshold < a.load ∧ a.load < a.target + a.threshold →
      (gen_sine a frames t).2 = (List.range frames).map fun i =>
        { sinePhase := a.freq * t i, sineAmp := 1 / 5, noiseAmp := 0 }) ∧
    (¬(a.target - a.threshold < a.load ∧ a.load < a.target + a.threshold) →
      (gen_sine a frames t).2 = (List.range frames).map fun i =>
        { sinePhase := a.freq * t i, sineAmp := 1 / 5,
          noiseAmp := |a.target - a.load| / a.target }) := by
  constructor <;> intro h <;> simp [gen_sine, h]

/-- Witness for C6 at the spec scenario: target 10, tolerance 0.1; load
10.05 gives the pure sine (noise amplitude 0), load 8.0 gives noise
amplitude scaleFactor = 0.2 with the sine still present. -/
theorem c6_gen_sine_witness :
    (gen_sine { Audio.init with target := 10, load := 201 / 20, active := true } 2
      (fun i => (i : ℚ))).2 =
      [{ sinePhase := 0, sineAmp := 1 / 5, noiseAmp := 0 },
       { sinePhase := 500, sineAmp := 1 / 5, noiseAmp := 0 }] ∧
    (gen_sine { Audio.init with target := 10, load := 8, active := true } 2
      (fun i => (i : ℚ))).2 =
      [{ sinePhase := 0, sineAmp := 1 / 5, noiseAmp := 1 / 5 },
       { sinePhase := 500, sineAmp := 1 / 5, noiseAmp := 1 / 5 }] := by
  constructor
  · have h := (c6_gen_sine { Audio.init with target := 10, load := 201 / 20, active := true }
      2 (fun i => (i : ℚ))).1 (by norm_num [Audio.init])
    rw [h]
    norm_num [List.range_succ, Sample.mk.injEq, Audio.init]
  · have h := (c6_gen_sine { Audio.init with target := 10, load := 8, active := true }
      2 (fun i => (i : ℚ))).2 (by norm_num [Audio.init])
    rw [h]
    norm_num [List.range_succ, Sample.mk.injEq, Audio.init, abs]
